import Mathlib

/-!
Shallow embedding of `src/backup.py` (Burhan1009/Python-Task), a four-stage
backup pipeline: select yesterday's `.bak` files from a source directory,
copy them into a date-named staging directory and zip it (`create_backup`),
prune stale date-named directories under the destination root
(`clean_old_backups`), and upload the archive to S3 (`upload_to_s3`).

Modelling conventions:
* A directory listing is a `List String` of names; the destination root's
  top level is a `List Entry` (name plus a directory flag), together with the
  contents of the staging directory (`DestState`).
* The system clock is external: the value `yd : Date` stands for
  `datetime.date.today() - timedelta(days=1)` as computed inside the script.
* Environment failures (OS errors, boto3 errors) are fault oracles passed as
  parameters.  An operation whose Python exception is caught by a
  `try/except` is modelled as returning normally; an operation whose
  exception would escape the enclosing function (there is no handler around
  it) makes the modelled function return `Except.error ()`.
* `print` calls are modelled as messages accumulated in a list.
-/

/-- A calendar date, as produced by `datetime.date`. -/
structure Date where
  year : Nat
  month : Nat
  day : Nat
deriving DecidableEq, Repr

/-- Zero-pad a number to two digits, as Python `%m` / `%d` do. -/
def pad2 (n : Nat) : String :=
  if n < 10 then "0" ++ toString n else toString n

/-- Zero-pad a number to four digits, as Python `%Y` does. -/
def pad4 (n : Nat) : String :=
  if n < 10 then "000" ++ toString n
  else if n < 100 then "00" ++ toString n
  else if n < 1000 then "0" ++ toString n
  else toString n

/-- `strftime('%Y_%m_%d')`. -/
def fmtUnderscore (d : Date) : String :=
  pad4 d.year ++ "_" ++ pad2 d.month ++ "_" ++ pad2 d.day

/-- `strftime('%Y-%m-%d')`. -/
def fmtDash (d : Date) : String :=
  pad4 d.year ++ "-" ++ pad2 d.month ++ "-" ++ pad2 d.day

/-- Boolean test that one character list is an initial segment of another. -/
def charsPre : List Char → List Char → Bool
  | [], _ => true
  | _ :: _, [] => false
  | a :: as, b :: bs => a == b && charsPre as bs

/-- Boolean test that `pat` occurs contiguously inside the second list. -/
def charsSub (pat : List Char) : List Char → Bool
  | [] => charsPre pat []
  | c :: cs => charsPre pat (c :: cs) || charsSub pat cs

/-- Python's `pat in s` substring test on strings. -/
def strContains (s pat : String) : Bool :=
  charsSub pat.toList s.toList

/-- Python's `s.endswith(post)`. -/
def strEndsWith (s post : String) : Bool :=
  charsPre post.toList.reverse s.toList.reverse

/-- `filter_previous_day_files` (backup.py lines 8-16): keep the listing
entries that contain yesterday's `YYYY_MM_DD` token and end in `.bak`.
The directory listing is the parameter `listing`; `yd` is yesterday's date.
The Python function's only filesystem interaction is `os.listdir`, so the
stage is a pure function of the listing. -/
def filter_previous_day_files (listing : List String) (yd : Date) : List String :=
  let yesterday := fmtUnderscore yd
  listing.filter (fun file => strContains file yesterday && strEndsWith file ".bak")

/-- A top-level entry of the destination root: its name and whether
`os.path.isdir` holds for it. -/
structure Entry where
  name : String
  isDir : Bool
deriving DecidableEq, Repr

/-- Destination-side filesystem state: the top-level entries of the
destination root, and the file names inside the staging directory
`destination_path/<YYYY-MM-DD>` (by convention `[]` when that directory
does not exist). -/
structure DestState where
  entries : List Entry
  staging : List String
deriving DecidableEq, Repr

/-- The deletion loop of `clean_old_backups` (backup.py lines 22-28):
walk the listing in order; delete each directory whose name differs from
`allowed`; a `shutil.rmtree` exception (oracle `rf`) is caught by the
surrounding `except`, which aborts the rest of the pass, leaving the
failing entry and all later entries untouched.  Returns the surviving
entries and the printed messages. -/
def cleanLoop (destination_path allowed : String) (rf : String → Bool) :
    List Entry → List Entry × List String
  | [] => ([], [])
  | e :: rest =>
    if e.isDir && e.name != allowed then
      if rf e.name then (e :: rest, ["Error during old backup cleanup"])
      else
        let r := cleanLoop destination_path allowed rf rest
        (r.1, ("Deleted old backup folder: " ++ destination_path ++ "/" ++ e.name) :: r.2)
    else
      let r := cleanLoop destination_path allowed rf rest
      (e :: r.1, r.2)

/-- `clean_old_backups` (backup.py lines 18-30).  `listFails` is the oracle
for `os.listdir(destination_path)` raising; that exception is also caught
by the function's own `try/except`, so the function always returns
normally.  Result: the surviving top-level entries and the messages. -/
def clean_old_backups (destination_path : String) (entries : List Entry)
    (allowed : String) (listFails : Bool) (rf : String → Bool) :
    List Entry × List String :=
  if listFails then (entries, ["Error during old backup cleanup"])
  else cleanLoop destination_path allowed rf entries

/-- Fault oracle for `create_backup`: whether `os.makedirs` raises, which
`shutil.copy2` calls raise (by source file name), whether
`shutil.make_archive` raises, and whether the final `shutil.rmtree`
raises. -/
structure ArchFaults where
  makedirsFails : Bool
  copyFails : String → Bool
  packFails : Bool
  rmtreeFails : Bool

/-- Result of `create_backup`: the returned value (`some zipPath` or the
Python `None`), the destination state afterwards, and the messages. -/
structure CBResult where
  zip : Option String
  fs : DestState
  msgs : List String
deriving Repr

/-- Add a file name to the staging listing; copying over an existing name
overwrites it in place (`shutil.copy2`), so the listing gains no
duplicate. -/
def addFile (l : List String) (f : String) : List String :=
  if l.contains f then l else l ++ [f]

/-- The copy loop of `create_backup` (backup.py lines 45-50): copy each
file in order into the staging listing; the first failing `shutil.copy2`
(oracle `cf`) raises, ending the loop with the files copied so far still
present.  Returns (loop completed without exception, staging contents,
messages). -/
def copyFiles (cf : String → Bool) (staging : List String) :
    List String → Bool × List String × List String
  | [] => (true, staging, [])
  | f :: fs =>
    if cf f then (false, staging, [])
    else
      let r := copyFiles cf (addFile staging f) fs
      (r.1, r.2.1, ("Copied: " ++ f) :: r.2.2)

/-- Whether the destination root already has an entry with this name. -/
def hasEntryNamed (entries : List Entry) (n : String) : Bool :=
  entries.any (fun e => e.name == n)

/-- `os.makedirs(path, exist_ok=True)` still raises when the path exists
as a non-directory. -/
def makedirsBlocked (entries : List Entry) (n : String) : Bool :=
  entries.any (fun e => e.name == n && !e.isDir)

/-- `shutil.make_archive` writes the zip at the destination root,
overwriting any existing entry of that name. -/
def setFileEntry (entries : List Entry) (n : String) : List Entry :=
  if hasEntryNamed entries n then
    entries.map (fun e => if e.name == n then ⟨n, false⟩ else e)
  else entries ++ [⟨n, false⟩]

/-- Remove the top-level entry with the given name (`shutil.rmtree` of the
staging directory). -/
def removeEntry (entries : List Entry) (n : String) : List Entry :=
  entries.filter (fun e => e.name != n)

/-- The staging/zip base name `date_name` of `create_backup`:
yesterday formatted `%Y-%m-%d`. -/
def date_name (yd : Date) : String := fmtDash yd

/-- The `try` block of `create_backup` (backup.py lines 44-63): copy the
files into the staging listing; on a copy exception, or a
`shutil.make_archive` exception, or a `shutil.rmtree` exception, the
`except` clause prints and the function returns `None`; otherwise the
archive entry `<dn>.zip` is written at the destination root, the staging
directory `<dn>` is removed, and the zip path is returned. -/
def backupTry (files : List String) (dn backup_dir : String)
    (entries1 : List Entry) (staging0 : List String) (af : ArchFaults) :
    CBResult :=
  match copyFiles af.copyFails staging0 files with
  | (false, st, ms) =>
    ⟨none, ⟨entries1, st⟩, ms ++ ["Error during backup creation"]⟩
  | (true, st, ms) =>
    if af.packFails then
      ⟨none, ⟨entries1, st⟩, ms ++ ["Error during backup creation"]⟩
    else
      let entries2 := setFileEntry entries1 (dn ++ ".zip")
      if af.rmtreeFails then
        ⟨none, ⟨entries2, st⟩,
         ms ++ ["Backup Complete..! Created zip archive.",
                "Error during backup creation"]⟩
      else
        ⟨some (backup_dir ++ ".zip"), ⟨removeEntry entries2 dn, []⟩,
         ms ++ ["Backup Complete..! Created zip archive.",
                "Removed temporary folder: " ++ backup_dir]⟩

/-- `create_backup` (backup.py lines 32-63).  `os.makedirs` runs before the
`try`, so its exception escapes the function (`Except.error`); with
`exist_ok=True` it keeps an existing staging directory and its contents,
and still raises when the path exists as a file.  The rest is the `try`
block `backupTry`. -/
def create_backup (files : List String) (yd : Date) (destination_path : String)
    (fs : DestState) (af : ArchFaults) : Except Unit CBResult :=
  let dn := date_name yd
  if af.makedirsFails || makedirsBlocked fs.entries dn then .error ()
  else
    .ok (backupTry files dn (destination_path ++ "/" ++ dn)
      (if hasEntryNamed fs.entries dn then fs.entries else fs.entries ++ [⟨dn, true⟩])
      (if hasEntryNamed fs.entries dn then fs.staging else []) af)

/-- The outcome of the `s3.upload_file` call: success, or one of the three
exception classes distinguished by `upload_to_s3`. -/
inductive S3Outcome where
  | success
  | fileNotFound
  | noCredentials
  | otherError
deriving DecidableEq, Repr

/-- Fault oracle for `upload_to_s3`: whether `boto3.client` (before the
`try`) raises, and how `upload_file` turns out when the local file
exists. -/
structure UploadFaults where
  clientFails : Bool
  outcome : S3Outcome

/-- The path component after the last separator: the characters seen since
the last `/`. -/
def basenameAux (cur : List Char) : List Char → List Char
  | [] => cur
  | c :: cs => if c == '/' then basenameAux [] cs else basenameAux (cur ++ [c]) cs

/-- `os.path.basename` on the forward-slash paths the model builds. -/
def basename (p : String) : String :=
  String.mk (basenameAux [] p.toList)

/-- `upload_to_s3` (backup.py lines 65-89).  The boto3 client is
constructed before the `try`, so a failure there escapes
(`Except.error`).  After that, `upload_file` raises `FileNotFoundError`
when the local file is missing; `FileNotFoundError`, `NoCredentialsError`
and any other exception are each caught and printed with their own
message.  The returned string is the printed message. -/
def upload_to_s3 (file_path bucket_name s3_folder : String)
    (localExists : Bool) (uf : UploadFaults) : Except Unit String :=
  if uf.clientFails then .error ()
  else
    let file_name := basename file_path
    let s3_key := s3_folder ++ "/" ++ file_name
    match (if localExists then uf.outcome else .fileNotFound) with
    | .success => .ok ("File uploaded successfully to S3: " ++ s3_key)
    | .fileNotFound => .ok "The file was not found"
    | .noCredentials => .ok "Credentials not available"
    | .otherError => .ok "Error during S3 upload"

/-- The environment of one run of the script: the source listing (and
whether listing it raises), yesterday's date, the destination root path
and its initial state, the fault oracles of the three effectful stages,
and whether the produced archive still exists when the upload opens it. -/
structure RunEnv where
  listing : List String
  listFails : Bool
  yd : Date
  destPath : String
  fs0 : DestState
  af : ArchFaults
  pruneListFails : Bool
  rmFails : String → Bool
  localExists : Bool
  uf : UploadFaults

/-- Observable outcome of one run: the selected files, which stages were
invoked, the destination state at the moment the pruner starts (`none`
when it never runs), the archiver's returned zip path, the final
destination state, and the printed messages. -/
structure RunResult where
  files : List String
  archiverInvoked : Bool
  prunerInvoked : Bool
  uploaderInvoked : Bool
  fsAtPrune : Option DestState
  zip : Option String
  fsFinal : DestState
  msgs : List String
deriving DecidableEq, Repr

/-- `bucket_name` from the script's configuration block. -/
def bucket_name : String := "backupkyc"

/-- The script's top-level flow (backup.py lines 91-116): select, and if
anything was selected, archive, prune with `allowed_date` = yesterday
`%Y-%m-%d`, and upload only when the archiver returned a path; otherwise
print that nothing was found.  `Except.error` is an exception escaping to
the interpreter (selector listing, `os.makedirs`, boto3 client). -/
def main_run (env : RunEnv) : Except Unit RunResult :=
  if env.listFails then .error ()
  else
    let previous_day_files := filter_previous_day_files env.listing env.yd
    if previous_day_files.isEmpty then
      .ok ⟨previous_day_files, false, false, false, none, none, env.fs0,
           ["No files found for yesterday's date."]⟩
    else
      match create_backup previous_day_files env.yd env.destPath env.fs0 env.af with
      | .error e => .error e
      | .ok cb =>
        let allowed := fmtDash env.yd
        let pr := clean_old_backups env.destPath cb.fs.entries allowed
                    env.pruneListFails env.rmFails
        let fs2 : DestState := ⟨pr.1, cb.fs.staging⟩
        match cb.zip with
        | none =>
          .ok ⟨previous_day_files, true, true, false, some cb.fs, none, fs2,
               cb.msgs ++ pr.2⟩
        | some z =>
          match upload_to_s3 z bucket_name allowed env.localExists env.uf with
          | .error e => .error e
          | .ok m =>
            .ok ⟨previous_day_files, true, true, true, some cb.fs, some z, fs2,
                 cb.msgs ++ pr.2 ++ [m]⟩

/-- C1: the Selector keeps exactly the listing entries that contain
yesterday's `YYYY_MM_DD` token and end in `.bak` — membership is
equivalent to that condition — and its output is a subsequence of the
listing, so the directory-enumeration order is preserved; as a Lean
function of the listing it has no side effects. -/
theorem selector_filters_exactly (listing : List String) (yd : Date) :
    (∀ f, f ∈ filter_previous_day_files listing yd ↔
      (f ∈ listing ∧ strContains f (fmtUnderscore yd) = true
        ∧ strEndsWith f ".bak" = true))
    ∧ (filter_previous_day_files listing yd).Sublist listing := by
  constructor
  · intro f
    simp [filter_previous_day_files, List.mem_filter, Bool.and_eq_true, and_assoc]
  · exact List.filter_sublist listing

/-- Fault-free deletion pass: with no `rmtree` failures the surviving
entries are exactly those that are not directories with a different
name. -/
lemma cleanLoop_no_fault (dp allowed : String) (l : List Entry) :
    (cleanLoop dp allowed (fun _ => false) l).1
      = l.filter (fun e => !(e.isDir && e.name != allowed)) := by
  induction l with
  | nil => rfl
  | cons e rest ih =>
    by_cases hd : e.isDir = true
    · by_cases hn : e.name = allowed
      · simp [cleanLoop, hd, hn, ih, List.filter_cons]
      · simp [cleanLoop, hd, hn, ih, List.filter_cons]
    · rw [Bool.not_eq_true] at hd
      simp [cleanLoop, hd, ih, List.filter_cons]

/-- Entries that are not directories, or carry the allowed name, survive
every deletion pass, whatever the failure oracle does. -/
lemma cleanLoop_keeps (dp allowed : String) (rf : String → Bool) (l : List Entry)
    (e : Entry) (he : e ∈ l) (h : e.isDir = false ∨ e.name = allowed) :
    e ∈ (cleanLoop dp allowed rf l).1 := by
  induction l with
  | nil => cases he
  | cons a rest ih =>
    rcases List.mem_cons.mp he with rfl | hmem
    · by_cases hc : (e.isDir && e.name != allowed) = true
      · exfalso
        rcases h with h | h
        · simp [h] at hc
        · simp [h] at hc
      · simp [cleanLoop, hc]
    · by_cases hc : (a.isDir && a.name != allowed) = true
      · by_cases hr : rf a.name = true
        · simp [cleanLoop, hc, hr]
          exact Or.inr hmem
        · simp [cleanLoop, hc, hr]
          exact ih hmem
      · simp [cleanLoop, hc]
        exact Or.inr (ih hmem)

/-- C3: with no listing or deletion failure, directory-mode pruning keeps
exactly the entries that are not directories named differently from the
allowed date — i.e. it deletes exactly the directories whose name is not
the allowed date — and any entry named the allowed date survives. -/
theorem clean_old_backups_directory_mode (dp : String) (entries : List Entry)
    (allowed : String) (lf : Bool) (rf : String → Bool)
    (h1 : lf = false) (h2 : rf = fun _ => false) :
    (clean_old_backups dp entries allowed lf rf).1
      = entries.filter (fun e => !(e.isDir && e.name != allowed))
    ∧ ∀ e ∈ entries, e.name = allowed →
        e ∈ (clean_old_backups dp entries allowed lf rf).1 := by
  subst h1; subst h2
  have hmain : clean_old_backups dp entries allowed false (fun _ => false)
      = cleanLoop dp allowed (fun _ => false) entries := rfl
  rw [hmain]
  refine ⟨cleanLoop_no_fault dp allowed entries, ?_⟩
  intro e he hn
  exact cleanLoop_keeps dp allowed (fun _ => false) entries e he (Or.inr hn)

/-- Scenario C of the spec: three date directories, allowed date
`2024-05-03`, directory mode — only `2024-05-03` remains. -/
def scEntries : List Entry :=
  [⟨"2024-05-01", true⟩, ⟨"2024-05-02", true⟩, ⟨"2024-05-03", true⟩]

/-- Witness for C3 at Scenario C. -/
theorem clean_old_backups_directory_mode_witness :
    (scEntries.filter (fun e => !(e.isDir && e.name != "2024-05-03"))
        = [⟨"2024-05-03", true⟩])
    ∧ ((clean_old_backups "D:/CloudBackup/Zip/kyc" scEntries "2024-05-03" false
          (fun _ => false)).1
        = scEntries.filter (fun e => !(e.isDir && e.name != "2024-05-03"))
      ∧ ∀ e ∈ scEntries, e.name = "2024-05-03" →
          e ∈ (clean_old_backups "D:/CloudBackup/Zip/kyc" scEntries "2024-05-03" false
                (fun _ => false)).1) :=
  ⟨by decide,
   clean_old_backups_directory_mode "D:/CloudBackup/Zip/kyc" scEntries "2024-05-03"
     false (fun _ => false) rfl rfl⟩

/-- C10: pruning never deletes a top-level entry that is not a directory,
whatever the listing or deletion oracles do; in particular the `.zip`
archives of previous runs, being plain files at the destination root,
always survive and accumulate. -/
theorem clean_old_backups_never_deletes_files (dp : String) (entries : List Entry)
    (allowed : String) (lf : Bool) (rf : String → Bool) (e : Entry)
    (h1 : e ∈ entries) (h2 : e.isDir = false) :
    e ∈ (clean_old_backups dp entries allowed lf rf).1 := by
  cases lf with
  | true => exact h1
  | false => exact cleanLoop_keeps dp allowed rf entries e h1 (Or.inl h2)

/-- Witness for C10: an old archive file `2024-05-01.zip` survives a prune
pass that deletes its sibling directory. -/
theorem clean_old_backups_never_deletes_files_witness :
    ((⟨"2024-05-01.zip", false⟩ : Entry)
        ∈ [(⟨"2024-05-01.zip", false⟩ : Entry), ⟨"2024-05-01", true⟩])
    ∧ (Entry.isDir ⟨"2024-05-01.zip", false⟩ = false)
    ∧ (⟨"2024-05-01.zip", false⟩ : Entry)
        ∈ (clean_old_backups "D:/CloudBackup/Zip/kyc"
            [⟨"2024-05-01.zip", false⟩, ⟨"2024-05-01", true⟩] "2024-05-03" false
            (fun _ => false)).1 :=
  ⟨by decide, rfl,
   clean_old_backups_never_deletes_files "D:/CloudBackup/Zip/kyc"
     [⟨"2024-05-01.zip", false⟩, ⟨"2024-05-01", true⟩] "2024-05-03" false
     (fun _ => false) ⟨"2024-05-01.zip", false⟩ (by decide) rfl⟩

/-- C2: when the Selector returns nothing, the run invokes neither the
Archiver nor the Pruner nor the Uploader, leaves the destination state
untouched, and only prints that no files were found. -/
theorem main_empty_selection (env : RunEnv) (h1 : env.listFails = false)
    (h2 : filter_previous_day_files env.listing env.yd = []) :
    main_run env = .ok ⟨[], false, false, false, none, none, env.fs0,
      ["No files found for yesterday's date."]⟩ := by
  simp [main_run, h1, h2]

/-- A run environment whose source listing has no `.bak` file for the
reference date 2024-05-01. -/
def envEmpty : RunEnv :=
  { listing := ["report.txt", "db_2024_05_01.log"], listFails := false,
    yd := ⟨2024, 5, 1⟩, destPath := "D:/CloudBackup/Zip/kyc",
    fs0 := ⟨[], []⟩,
    af := ⟨false, fun _ => false, false, false⟩,
    pruneListFails := false, rmFails := fun _ => false,
    localExists := true, uf := ⟨false, .success⟩ }

/-- Witness for C2 on a concrete listing with no matching file. -/
theorem main_empty_selection_witness :
    envEmpty.listFails = false
    ∧ filter_previous_day_files envEmpty.listing envEmpty.yd = []
    ∧ main_run envEmpty = .ok ⟨[], false, false, false, none, none, envEmpty.fs0,
        ["No files found for yesterday's date."]⟩ :=
  ⟨rfl, rfl, main_empty_selection envEmpty rfl rfl⟩


/-- Membership in `addFile`: the new file is present, and old ones stay. -/
lemma mem_addFile (l : List String) (f x : String) (h : x ∈ l ∨ x = f) :
    x ∈ addFile l f := by
  by_cases hc : l.contains f = true
  · unfold addFile
    rw [if_pos hc]
    rcases h with h | rfl
    · exact h
    · exact List.elem_iff.mp hc
  · unfold addFile
    rw [if_neg hc]
    rcases h with h | rfl
    · exact List.mem_append_left _ h
    · exact List.mem_append_right _ (List.mem_cons_self _ _)

/-- The staging listing only grows along the copy loop. -/
lemma copyFiles_staging_mono (cf : String → Bool) (fs : List String)
    (st : List String) (x : String) (hx : x ∈ st) :
    x ∈ (copyFiles cf st fs).2.1 := by
  induction fs generalizing st with
  | nil => exact hx
  | cons f rest ih =>
    by_cases hf : cf f = true
    · simpa [copyFiles, hf] using hx
    · simpa [copyFiles, hf] using ih (addFile st f) (mem_addFile st f x (Or.inl hx))

/-- A copy loop over files none of which fail completes without
exception. -/
lemma copyFiles_all_ok (cf : String → Bool) (st fs : List String)
    (h : ∀ f ∈ fs, cf f = false) : (copyFiles cf st fs).1 = true := by
  induction fs generalizing st with
  | nil => rfl
  | cons f rest ih =>
    have hf : cf f = false := h f (List.mem_cons_self f rest)
    simpa [copyFiles, hf] using
      ih (addFile st f) (fun g hg => h g (List.mem_cons_of_mem f hg))

/-- A copy loop containing a failing file raises. -/
lemma copyFiles_exists_fail (cf : String → Bool) (st fs : List String)
    (h : ∃ f ∈ fs, cf f = true) : (copyFiles cf st fs).1 = false := by
  induction fs generalizing st with
  | nil => simp at h
  | cons f rest ih =>
    by_cases hf : cf f = true
    · simp [copyFiles, hf]
    · rcases h with ⟨g, hg, hgf⟩
      rcases List.mem_cons.mp hg with rfl | hg2
      · exact absurd hgf hf
      · simpa [copyFiles, hf] using ih (addFile st f) ⟨g, hg2, hgf⟩

/-- When the copy loop hits its first failing file, the files copied
before it are in the staging listing of the aborted loop. -/
lemma copyFiles_fail_keeps (cf : String → Bool) (st : List String)
    (pre : List String) (g : String) (rest : List String)
    (h1 : ∀ f ∈ pre, cf f = false) (h2 : cf g = true) :
    (copyFiles cf st (pre ++ g :: rest)).1 = false
    ∧ ∀ f ∈ pre, f ∈ (copyFiles cf st (pre ++ g :: rest)).2.1 := by
  induction pre generalizing st with
  | nil =>
    constructor
    · simp [copyFiles, h2]
    · simp
  | cons a pr ih =>
    have ha : cf a = false := h1 a (List.mem_cons_self a pr)
    have ih2 := ih (addFile st a) (fun f hf => h1 f (List.mem_cons_of_mem a hf))
    constructor
    · simpa [copyFiles, ha] using ih2.1
    · intro f hf
      rcases List.mem_cons.mp hf with rfl | hf2
      · simpa [copyFiles, ha] using
          copyFiles_staging_mono cf (pr ++ g :: rest) (addFile st f) f
            (mem_addFile st f f (Or.inr rfl))
      · simpa [copyFiles, ha] using ih2.2 f hf2

/-- The name written by `setFileEntry` is present afterwards, as a file. -/
lemma mem_setFileEntry (entries : List Entry) (n : String) :
    (⟨n, false⟩ : Entry) ∈ setFileEntry entries n := by
  unfold setFileEntry
  by_cases hc : hasEntryNamed entries n = true
  · rw [if_pos hc]
    rcases List.any_eq_true.mp hc with ⟨e, he, hn⟩
    exact List.mem_map.mpr ⟨e, he, by simp [hn]⟩
  · rw [if_neg hc]
    exact List.mem_append_right entries (List.mem_cons_self _ _)

/-- Entries surviving `removeEntry` are exactly those differently named. -/
lemma mem_removeEntry (entries : List Entry) (n : String) (e : Entry) :
    e ∈ removeEntry entries n ↔ e ∈ entries ∧ e.name ≠ n := by
  simp [removeEntry, List.mem_filter]

/-- A string is never equal to itself with `.zip` appended. -/
lemma zip_append_ne (s : String) : s ++ ".zip" ≠ s := by
  intro h
  have h2 := congrArg String.length h
  rw [String.length_append] at h2
  have h3 : String.length ".zip" = 4 := rfl
  rw [h3] at h2
  omega

/-- `create_backup` when `os.makedirs` neither fails nor is blocked:
it reaches the `try` block. -/
lemma create_backup_ok (files : List String) (yd : Date) (dp : String)
    (fs : DestState) (af : ArchFaults)
    (h1 : af.makedirsFails = false)
    (h2 : makedirsBlocked fs.entries (date_name yd) = false) :
    create_backup files yd dp fs af
      = .ok (backupTry files (date_name yd) (dp ++ "/" ++ date_name yd)
          (if hasEntryNamed fs.entries (date_name yd) then fs.entries
           else fs.entries ++ [⟨date_name yd, true⟩])
          (if hasEntryNamed fs.entries (date_name yd) then fs.staging else []) af) := by
  simp only [create_backup]
  rw [h1, h2]
  rfl

/-- The `try` block when some copy raises. -/
lemma backupTry_copy_fail (files : List String) (dn bdir : String)
    (entries1 : List Entry) (staging0 : List String) (af : ArchFaults)
    (hc : (copyFiles af.copyFails staging0 files).1 = false) :
    backupTry files dn bdir entries1 staging0 af
      = ⟨none, ⟨entries1, (copyFiles af.copyFails staging0 files).2.1⟩,
         (copyFiles af.copyFails staging0 files).2.2
           ++ ["Error during backup creation"]⟩ := by
  have hcopy : copyFiles af.copyFails staging0 files
      = (false, (copyFiles af.copyFails staging0 files).2.1,
          (copyFiles af.copyFails staging0 files).2.2) := by rw [← hc]
  unfold backupTry
  rw [hcopy]

/-- The `try` block when copying succeeds but `make_archive` raises. -/
lemma backupTry_pack_fail (files : List String) (dn bdir : String)
    (entries1 : List Entry) (staging0 : List String) (af : ArchFaults)
    (hc : (copyFiles af.copyFails staging0 files).1 = true)
    (hp : af.packFails = true) :
    backupTry files dn bdir entries1 staging0 af
      = ⟨none, ⟨entries1, (copyFiles af.copyFails staging0 files).2.1⟩,
         (copyFiles af.copyFails staging0 files).2.2
           ++ ["Error during backup creation"]⟩ := by
  have hcopy : copyFiles af.copyFails staging0 files
      = (true, (copyFiles af.copyFails staging0 files).2.1,
          (copyFiles af.copyFails staging0 files).2.2) := by rw [← hc]
  unfold backupTry
  rw [hcopy, hp]
  simp

/-- The `try` block on the fault-free path: archive written, staging
directory removed, zip path returned. -/
lemma backupTry_success (files : List String) (dn bdir : String)
    (entries1 : List Entry) (staging0 : List String) (af : ArchFaults)
    (hc : (copyFiles af.copyFails staging0 files).1 = true)
    (hp : af.packFails = false) (hr : af.rmtreeFails = false) :
    backupTry files dn bdir entries1 staging0 af
      = ⟨some (bdir ++ ".zip"),
         ⟨removeEntry (setFileEntry entries1 (dn ++ ".zip")) dn, []⟩,
         (copyFiles af.copyFails staging0 files).2.2
           ++ ["Backup Complete..! Created zip archive.",
               "Removed temporary folder: " ++ bdir]⟩ := by
  have hcopy : copyFiles af.copyFails staging0 files
      = (true, (copyFiles af.copyFails staging0 files).2.1,
          (copyFiles af.copyFails staging0 files).2.2) := by rw [← hc]
  unfold backupTry
  rw [hcopy, hp, hr]
  simp

/-- Any copy or packaging failure makes the `try` block produce the null
result and print the archiver error message. -/
lemma backupTry_error (files : List String) (dn bdir : String)
    (entries1 : List Entry) (staging0 : List String) (af : ArchFaults)
    (h : (∃ f ∈ files, af.copyFails f = true) ∨ af.packFails = true) :
    (backupTry files dn bdir entries1 staging0 af).zip = none
    ∧ "Error during backup creation"
        ∈ (backupTry files dn bdir entries1 staging0 af).msgs := by
  rcases h with h | h
  · have hc := copyFiles_exists_fail af.copyFails staging0 files h
    rw [backupTry_copy_fail files dn bdir entries1 staging0 af hc]
    exact ⟨rfl, List.mem_append_right _ (List.mem_cons_self _ _)⟩
  · by_cases hc : (copyFiles af.copyFails staging0 files).1 = true
    · rw [backupTry_pack_fail files dn bdir entries1 staging0 af hc h]
      exact ⟨rfl, List.mem_append_right _ (List.mem_cons_self _ _)⟩
    · rw [backupTry_copy_fail files dn bdir entries1 staging0 af
        (Bool.not_eq_true _ ▸ hc)]
      exact ⟨rfl, List.mem_append_right _ (List.mem_cons_self _ _)⟩

/-- The run when the Archiver returns `None`: the Pruner still runs on the
post-archiver state, and the Uploader is skipped. -/
lemma main_run_zip_none (env : RunEnv) (cb : CBResult)
    (h1 : env.listFails = false)
    (hne : (filter_previous_day_files env.listing env.yd).isEmpty = false)
    (hcb : create_backup (filter_previous_day_files env.listing env.yd) env.yd
            env.destPath env.fs0 env.af = .ok cb)
    (hz : cb.zip = none) :
    main_run env = .ok ⟨filter_previous_day_files env.listing env.yd, true, true, false,
      some cb.fs, none,
      ⟨(clean_old_backups env.destPath cb.fs.entries (fmtDash env.yd)
          env.pruneListFails env.rmFails).1, cb.fs.staging⟩,
      cb.msgs ++ (clean_old_backups env.destPath cb.fs.entries (fmtDash env.yd)
          env.pruneListFails env.rmFails).2⟩ := by
  simp only [main_run, h1, hne, hcb, hz, Bool.false_eq_true, if_false]

/-- The run when the Archiver returns a zip path and the Uploader's client
constructs: prune, then upload. -/
lemma main_run_zip_some (env : RunEnv) (cb : CBResult) (z m : String)
    (h1 : env.listFails = false)
    (hne : (filter_previous_day_files env.listing env.yd).isEmpty = false)
    (hcb : create_backup (filter_previous_day_files env.listing env.yd) env.yd
            env.destPath env.fs0 env.af = .ok cb)
    (hz : cb.zip = some z)
    (hup : upload_to_s3 z bucket_name (fmtDash env.yd) env.localExists env.uf = .ok m) :
    main_run env = .ok ⟨filter_previous_day_files env.listing env.yd, true, true, true,
      some cb.fs, some z,
      ⟨(clean_old_backups env.destPath cb.fs.entries (fmtDash env.yd)
          env.pruneListFails env.rmFails).1, cb.fs.staging⟩,
      cb.msgs ++ (clean_old_backups env.destPath cb.fs.entries (fmtDash env.yd)
          env.pruneListFails env.rmFails).2 ++ [m]⟩ := by
  simp only [main_run, h1, hne, hcb, hz, hup, Bool.false_eq_true, if_false]

/-- C4: any copy or packaging exception is caught inside `create_backup`,
which returns the null result and logs the archiver error; the caller then
runs to completion without invoking the Uploader. -/
theorem archiver_failure_caught_and_skips_upload (env : RunEnv)
    (h1 : env.listFails = false)
    (h2 : env.af.makedirsFails = false)
    (h3 : makedirsBlocked env.fs0.entries (date_name env.yd) = false)
    (h4 : (∃ f ∈ filter_previous_day_files env.listing env.yd,
            env.af.copyFails f = true)
          ∨ (filter_previous_day_files env.listing env.yd ≠ []
              ∧ env.af.packFails = true)) :
    ∃ r, main_run env = .ok r ∧ r.zip = none ∧ r.uploaderInvoked = false
      ∧ "Error during backup creation" ∈ r.msgs := by
  have hne : filter_previous_day_files env.listing env.yd ≠ [] := by
    rcases h4 with ⟨f, hf, _⟩ | ⟨hne, _⟩
    · intro h0
      rw [h0] at hf
      exact absurd hf (List.not_mem_nil f)
    · exact hne
  have hemp : (filter_previous_day_files env.listing env.yd).isEmpty = false := by
    cases hls : filter_previous_day_files env.listing env.yd with
    | nil => exact absurd hls hne
    | cons a l => rfl
  have herr : (∃ f ∈ filter_previous_day_files env.listing env.yd,
      env.af.copyFails f = true) ∨ env.af.packFails = true := by
    rcases h4 with h | ⟨_, h⟩
    · exact Or.inl h
    · exact Or.inr h
  have htry := backupTry_error (filter_previous_day_files env.listing env.yd)
    (date_name env.yd) (env.destPath ++ "/" ++ date_name env.yd)
    (if hasEntryNamed env.fs0.entries (date_name env.yd) then env.fs0.entries
     else env.fs0.entries ++ [⟨date_name env.yd, true⟩])
    (if hasEntryNamed env.fs0.entries (date_name env.yd) then env.fs0.staging else [])
    env.af herr
  have hcb := create_backup_ok (filter_previous_day_files env.listing env.yd)
    env.yd env.destPath env.fs0 env.af h2 h3
  have hmain := main_run_zip_none env _ h1 hemp hcb htry.1
  exact ⟨_, hmain, rfl, rfl, List.mem_append_left _ htry.2⟩

/-- A run whose single selected file fails to copy. -/
def envCopyFail : RunEnv :=
  { listing := ["db_2024_05_01.bak"], listFails := false,
    yd := ⟨2024, 5, 1⟩, destPath := "D:/CloudBackup/Zip/kyc",
    fs0 := ⟨[], []⟩,
    af := ⟨false, fun _ => true, false, false⟩,
    pruneListFails := false, rmFails := fun _ => false,
    localExists := true, uf := ⟨false, .success⟩ }

/-- Witness for C4 on a run whose only copy raises. -/
theorem archiver_failure_caught_and_skips_upload_witness :
    (envCopyFail.listFails = false)
    ∧ (envCopyFail.af.makedirsFails = false)
    ∧ (makedirsBlocked envCopyFail.fs0.entries (date_name envCopyFail.yd) = false)
    ∧ ((∃ f ∈ filter_previous_day_files envCopyFail.listing envCopyFail.yd,
          envCopyFail.af.copyFails f = true)
        ∨ (filter_previous_day_files envCopyFail.listing envCopyFail.yd ≠ []
            ∧ envCopyFail.af.packFails = true))
    ∧ ∃ r, main_run envCopyFail = .ok r ∧ r.zip = none ∧ r.uploaderInvoked = false
        ∧ "Error during backup creation" ∈ r.msgs :=
  ⟨rfl, rfl, rfl,
   Or.inl ⟨"db_2024_05_01.bak", by decide, rfl⟩,
   archiver_failure_caught_and_skips_upload envCopyFail rfl rfl rfl
     (Or.inl ⟨"db_2024_05_01.bak", by decide, rfl⟩)⟩

/-- C7: a fault-free archiver run over a non-empty file set returns the
path `destinationRoot/<YYYY-MM-DD>.zip`, leaves the archive entry (whose
base name is the staging directory's name) at the destination root,
and removes the staging directory `<YYYY-MM-DD>`, so no entry of that name
remains and the staging listing is empty. -/
theorem create_backup_success (files : List String) (yd : Date) (dp : String)
    (fs : DestState) (af : ArchFaults)
    ( _hne : files ≠ [])
    (haf : af = ⟨false, fun _ => false, false, false⟩)
    (hbl : makedirsBlocked fs.entries (date_name yd) = false) :
    ∃ cb, create_backup files yd dp fs af = .ok cb
      ∧ cb.zip = some ((dp ++ "/" ++ date_name yd) ++ ".zip")
      ∧ (⟨date_name yd ++ ".zip", false⟩ : Entry) ∈ cb.fs.entries
      ∧ (∀ e ∈ cb.fs.entries, e.name ≠ date_name yd)
      ∧ cb.fs.staging = [] := by
  subst haf
  have hco := copyFiles_all_ok (fun _ => false)
    (if hasEntryNamed fs.entries (date_name yd) then fs.staging else []) files
    (fun _ _ => rfl)
  have hcb := create_backup_ok files yd dp fs
    ⟨false, fun _ => false, false, false⟩ rfl hbl
  have htry := backupTry_success files (date_name yd) (dp ++ "/" ++ date_name yd)
    (if hasEntryNamed fs.entries (date_name yd) then fs.entries
     else fs.entries ++ [⟨date_name yd, true⟩])
    (if hasEntryNamed fs.entries (date_name yd) then fs.staging else [])
    ⟨false, fun _ => false, false, false⟩ hco rfl rfl
  rw [htry] at hcb
  refine ⟨_, hcb, rfl, ?_, ?_, rfl⟩
  · exact (mem_removeEntry _ _ _).mpr
      ⟨mem_setFileEntry _ _, zip_append_ne (date_name yd)⟩
  · intro e he
    exact ((mem_removeEntry _ _ _).mp he).2

/-- Witness for C7 on a concrete one-file run. -/
theorem create_backup_success_witness :
    (["db_2024_05_01.bak"] ≠ ([] : List String))
    ∧ makedirsBlocked (DestState.mk [] []).entries (date_name ⟨2024, 5, 1⟩) = false
    ∧ ∃ cb, create_backup ["db_2024_05_01.bak"] ⟨2024, 5, 1⟩ "D:/CloudBackup/Zip/kyc"
          ⟨[], []⟩ ⟨false, fun _ => false, false, false⟩ = .ok cb
        ∧ cb.zip = some (("D:/CloudBackup/Zip/kyc" ++ "/" ++ date_name ⟨2024, 5, 1⟩) ++ ".zip")
        ∧ (⟨date_name ⟨2024, 5, 1⟩ ++ ".zip", false⟩ : Entry) ∈ cb.fs.entries
        ∧ (∀ e ∈ cb.fs.entries, e.name ≠ date_name ⟨2024, 5, 1⟩)
        ∧ cb.fs.staging = [] :=
  ⟨by decide, rfl,
   create_backup_success ["db_2024_05_01.bak"] ⟨2024, 5, 1⟩ "D:/CloudBackup/Zip/kyc"
     ⟨[], []⟩ ⟨false, fun _ => false, false, false⟩ (by decide) rfl rfl⟩

/-- C8: when a copy fails partway, the files copied before the failing one
remain in the staging directory even though `create_backup` returns the
null result — the archiver does not restore state on error. -/
theorem create_backup_partial_copy (pre : List String) (g : String)
    (rest : List String) (yd : Date) (dp : String) (fs : DestState)
    (af : ArchFaults)
    (h1 : af.makedirsFails = false)
    (h2 : makedirsBlocked fs.entries (date_name yd) = false)
    (h3 : ∀ f ∈ pre, af.copyFails f = false)
    (h4 : af.copyFails g = true) :
    ∃ cb, create_backup (pre ++ g :: rest) yd dp fs af = .ok cb
      ∧ cb.zip = none
      ∧ ∀ f ∈ pre, f ∈ cb.fs.staging := by
  have hcf := copyFiles_fail_keeps af.copyFails
    (if hasEntryNamed fs.entries (date_name yd) then fs.staging else [])
    pre g rest h3 h4
  have hcb := create_backup_ok (pre ++ g :: rest) yd dp fs af h1 h2
  have htry := backupTry_copy_fail (pre ++ g :: rest) (date_name yd)
    (dp ++ "/" ++ date_name yd)
    (if hasEntryNamed fs.entries (date_name yd) then fs.entries
     else fs.entries ++ [⟨date_name yd, true⟩])
    (if hasEntryNamed fs.entries (date_name yd) then fs.staging else [])
    af hcf.1
  rw [htry] at hcb
  refine ⟨_, hcb, rfl, ?_⟩
  intro f hf
  exact hcf.2 f hf

/-- Witness for C8: the first of two files is copied, the second copy
fails; the first file is still staged while the run reports failure. -/
theorem create_backup_partial_copy_witness :
    ((fun f => f == "b_2024_05_01.bak") "b_2024_05_01.bak" = true)
    ∧ ∃ cb, create_backup (["a_2024_05_01.bak"] ++ "b_2024_05_01.bak" :: [])
          ⟨2024, 5, 1⟩ "D:/CloudBackup/Zip/kyc" ⟨[], []⟩
          ⟨false, fun f => f == "b_2024_05_01.bak", false, false⟩ = .ok cb
        ∧ cb.zip = none
        ∧ ∀ f ∈ ["a_2024_05_01.bak"], f ∈ cb.fs.staging :=
  ⟨rfl,
   create_backup_partial_copy ["a_2024_05_01.bak"] "b_2024_05_01.bak" []
     ⟨2024, 5, 1⟩ "D:/CloudBackup/Zip/kyc" ⟨[], []⟩
     ⟨false, fun f => f == "b_2024_05_01.bak", false, false⟩ rfl rfl
     (by decide) rfl⟩

/-- The `try` block when `shutil.rmtree` of the staging directory raises:
the archive was already written, yet `None` is returned. -/
lemma backupTry_rmtree_fail (files : List String) (dn bdir : String)
    (entries1 : List Entry) (staging0 : List String) (af : ArchFaults)
    (hc : (copyFiles af.copyFails staging0 files).1 = true)
    (hp : af.packFails = false) (hr : af.rmtreeFails = true) :
    backupTry files dn bdir entries1 staging0 af
      = ⟨none, ⟨setFileEntry entries1 (dn ++ ".zip"),
          (copyFiles af.copyFails staging0 files).2.1⟩,
         (copyFiles af.copyFails staging0 files).2.2
           ++ ["Backup Complete..! Created zip archive.",
               "Error during backup creation"]⟩ := by
  have hcopy : copyFiles af.copyFails staging0 files
      = (true, (copyFiles af.copyFails staging0 files).2.1,
          (copyFiles af.copyFails staging0 files).2.2) := by rw [← hc]
  unfold backupTry
  rw [hcopy, hp, hr]
  simp

/-- Whenever the `try` block returns a zip path, the archive entry
`<dn>.zip` is present in its resulting destination state. -/
lemma backupTry_zip_some_archive (files : List String) (dn bdir : String)
    (entries1 : List Entry) (staging0 : List String) (af : ArchFaults)
    (z : String)
    (h : (backupTry files dn bdir entries1 staging0 af).zip = some z) :
    (⟨dn ++ ".zip", false⟩ : Entry)
      ∈ (backupTry files dn bdir entries1 staging0 af).fs.entries := by
  by_cases hc : (copyFiles af.copyFails staging0 files).1 = true
  · by_cases hp : af.packFails = true
    · rw [backupTry_pack_fail files dn bdir entries1 staging0 af hc hp] at h
      cases h
    · by_cases hr : af.rmtreeFails = true
      · rw [backupTry_rmtree_fail files dn bdir entries1 staging0 af hc
          (Bool.not_eq_true _ ▸ hp) hr] at h
        cases h
      · rw [backupTry_success files dn bdir entries1 staging0 af hc
          (Bool.not_eq_true _ ▸ hp) (Bool.not_eq_true _ ▸ hr)]
        exact (mem_removeEntry _ _ _).mpr
          ⟨mem_setFileEntry _ _, zip_append_ne dn⟩
  · rw [backupTry_copy_fail files dn bdir entries1 staging0 af
      (Bool.not_eq_true _ ▸ hc)] at h
    cases h

/-- Whenever `create_backup` returns a zip path, the archive entry is in
the destination state it leaves behind. -/
lemma create_backup_zip_some_archive (files : List String) (yd : Date)
    (dp : String) (fs : DestState) (af : ArchFaults) (cb : CBResult) (z : String)
    (hcb : create_backup files yd dp fs af = .ok cb) (hz : cb.zip = some z) :
    (⟨date_name yd ++ ".zip", false⟩ : Entry) ∈ cb.fs.entries := by
  by_cases hm : (af.makedirsFails || makedirsBlocked fs.entries (date_name yd)) = true
  · unfold create_backup at hcb
    rw [if_pos hm] at hcb
    cases hcb
  · obtain ⟨ha, hb⟩ := Bool.or_eq_false_iff.mp (Bool.not_eq_true _ ▸ hm)
    have hcb2 := create_backup_ok files yd dp fs af ha hb
    rw [hcb] at hcb2
    have hceq := Except.ok.inj hcb2
    subst hceq
    exact backupTry_zip_some_archive files (date_name yd)
      (dp ++ "/" ++ date_name yd) _ _ af z hz

/-- C5 counterexample: in the run `envCopyFail` the Archiver stage is
reached and fails, so no archive is ever produced, yet the Pruner still
executes (on a destination state with no archive entry): the Pruner is
not gated on the archive existing. -/
theorem prune_runs_without_archive_cex :
    main_run envCopyFail = .ok ⟨["db_2024_05_01.bak"], true, true, false,
      some ⟨[⟨"2024-05-01", true⟩], []⟩, none, ⟨[⟨"2024-05-01", true⟩], []⟩,
      ["Error during backup creation"]⟩
    ∧ hasEntryNamed [(⟨"2024-05-01", true⟩ : Entry)]
        (date_name envCopyFail.yd ++ ".zip") = false :=
  ⟨rfl, rfl⟩

/-- C5 (amended): the Pruner always runs directly after the Archiver, and
in every run where the Archiver returned its zip path, the archive entry
`<YYYY-MM-DD>.zip` already exists in the destination state the Pruner
operates on; when the Archiver fails, however, the Pruner still runs with
no archive present. -/
theorem prune_after_archive_when_produced (env : RunEnv) (r : RunResult)
    (z : String) (h1 : main_run env = .ok r) (h2 : r.zip = some z) :
    ∃ s, r.fsAtPrune = some s
      ∧ (⟨date_name env.yd ++ ".zip", false⟩ : Entry) ∈ s.entries := by
  simp only [main_run] at h1
  split at h1
  · exact Except.noConfusion h1
  · split at h1
    · cases h1
      cases h2
    · split at h1
      · exact Except.noConfusion h1
      · next cb hcb =>
        split at h1
        · cases h1
          cases h2
        · next z2 hz2 =>
          split at h1
          · exact Except.noConfusion h1
          · cases h1
            exact ⟨cb.fs, rfl,
              create_backup_zip_some_archive _ env.yd env.destPath env.fs0
                env.af cb z2 hcb hz2⟩

/-- A fully fault-free run of the whole pipeline. -/
def envSuccess : RunEnv :=
  { listing := ["db_2024_05_01.bak"], listFails := false,
    yd := ⟨2024, 5, 1⟩, destPath := "D:/CloudBackup/Zip/kyc",
    fs0 := ⟨[], []⟩,
    af := ⟨false, fun _ => false, false, false⟩,
    pruneListFails := false, rmFails := fun _ => false,
    localExists := true, uf := ⟨false, .success⟩ }

/-- The observable outcome of `envSuccess`. -/
def runSuccessResult : RunResult :=
  ⟨["db_2024_05_01.bak"], true, true, true,
   some ⟨[⟨"2024-05-01.zip", false⟩], []⟩,
   some "D:/CloudBackup/Zip/kyc/2024-05-01.zip",
   ⟨[⟨"2024-05-01.zip", false⟩], []⟩,
   ["Copied: db_2024_05_01.bak", "Backup Complete..! Created zip archive.",
    "Removed temporary folder: D:/CloudBackup/Zip/kyc/2024-05-01",
    "File uploaded successfully to S3: 2024-05-01/2024-05-01.zip"]⟩

/-- Witness for the amended C5 on the fault-free run. -/
theorem prune_after_archive_when_produced_witness :
    (main_run envSuccess = .ok runSuccessResult)
    ∧ (runSuccessResult.zip = some "D:/CloudBackup/Zip/kyc/2024-05-01.zip")
    ∧ ∃ s, runSuccessResult.fsAtPrune = some s
        ∧ (⟨date_name envSuccess.yd ++ ".zip", false⟩ : Entry) ∈ s.entries :=
  ⟨rfl, rfl,
   prune_after_archive_when_produced envSuccess runSuccessResult
     "D:/CloudBackup/Zip/kyc/2024-05-01.zip" rfl rfl⟩

/-- Once the boto3 client is constructed, `upload_to_s3` always returns
normally: every `upload_file` outcome is caught inside the function. -/
lemma upload_ok (fp b folder : String) (le : Bool) (uf : UploadFaults)
    (h : uf.clientFails = false) :
    ∃ m, upload_to_s3 fp b folder le uf = .ok m := by
  cases le with
  | false =>
    exact ⟨"The file was not found", by simp [upload_to_s3, h]⟩
  | true =>
    cases ho : uf.outcome with
    | success =>
      exact ⟨"File uploaded successfully to S3: " ++ (folder ++ "/" ++ basename fp),
        by simp [upload_to_s3, h, ho]⟩
    | fileNotFound =>
      exact ⟨"The file was not found", by simp [upload_to_s3, h, ho]⟩
    | noCredentials =>
      exact ⟨"Credentials not available", by simp [upload_to_s3, h, ho]⟩
    | otherError =>
      exact ⟨"Error during S3 upload", by simp [upload_to_s3, h, ho]⟩

/-- A run in which `os.listdir` on the source directory raises. -/
def envListFail : RunEnv :=
  { listing := [], listFails := true,
    yd := ⟨2024, 5, 1⟩, destPath := "D:/CloudBackup/Zip/kyc",
    fs0 := ⟨[], []⟩,
    af := ⟨false, fun _ => false, false, false⟩,
    pruneListFails := false, rmFails := fun _ => false,
    localExists := true, uf := ⟨false, .success⟩ }

/-- C6 counterexample: a failure inside the Selector stage (the
`os.listdir` call of `filter_previous_day_files`, which has no handler) is
not caught at the stage boundary — it escapes and terminates the
process. -/
theorem selector_failure_escapes_cex :
    main_run envListFail = .error () :=
  rfl

/-- C6 (amended): failures are caught and logged at the stage boundaries
of the Archiver's `try` block (copy, packaging, staging cleanup), of the
whole Pruner, and of the Uploader after client construction; but a
Selector listing failure, an `os.makedirs` failure in the Archiver, and a
boto3 client-construction failure in the Uploader are not caught and
escape.  Whenever those three entry-point operations succeed, no other
failure can terminate the process. -/
theorem stage_failures_caught_except_entry_points (env : RunEnv)
    (h1 : env.listFails = false)
    (h2 : env.af.makedirsFails = false)
    (h3 : makedirsBlocked env.fs0.entries (date_name env.yd) = false)
    (h4 : env.uf.clientFails = false) :
    ∃ r, main_run env = .ok r := by
  by_cases hemp : (filter_previous_day_files env.listing env.yd).isEmpty = true
  · refine ⟨⟨filter_previous_day_files env.listing env.yd, false, false, false,
      none, none, env.fs0, ["No files found for yesterday's date."]⟩, ?_⟩
    simp only [main_run, h1, hemp, Bool.false_eq_true, if_false, if_true]
  · have hemp2 : (filter_previous_day_files env.listing env.yd).isEmpty = false :=
      Bool.not_eq_true _ ▸ hemp
    have hcb := create_backup_ok (filter_previous_day_files env.listing env.yd)
      env.yd env.destPath env.fs0 env.af h2 h3
    cases hz : (backupTry (filter_previous_day_files env.listing env.yd)
        (date_name env.yd) (env.destPath ++ "/" ++ date_name env.yd)
        (if hasEntryNamed env.fs0.entries (date_name env.yd) then env.fs0.entries
         else env.fs0.entries ++ [⟨date_name env.yd, true⟩])
        (if hasEntryNamed env.fs0.entries (date_name env.yd) then env.fs0.staging
         else []) env.af).zip with
    | none => exact ⟨_, main_run_zip_none env _ h1 hemp2 hcb hz⟩
    | some z =>
      obtain ⟨m, hup⟩ := upload_ok z bucket_name (fmtDash env.yd)
        env.localExists env.uf h4
      exact ⟨_, main_run_zip_some env _ z m h1 hemp2 hcb hz hup⟩

/-- A run with a failure in every internal stage step that the script
catches: packaging raises, every prune deletion raises, and the produced
archive is missing at upload time. -/
def envManyFaults : RunEnv :=
  { listing := ["db_2024_05_01.bak"], listFails := false,
    yd := ⟨2024, 5, 1⟩, destPath := "D:/CloudBackup/Zip/kyc",
    fs0 := ⟨[⟨"2024-04-30", true⟩], []⟩,
    af := ⟨false, fun _ => false, true, false⟩,
    pruneListFails := false, rmFails := fun _ => true,
    localExists := false, uf := ⟨false, .otherError⟩ }

/-- Witness for the amended C6: with the three entry points healthy, a run
whose packaging and pruning deletions all raise still ends normally. -/
theorem stage_failures_caught_except_entry_points_witness :
    (envManyFaults.listFails = false)
    ∧ (envManyFaults.af.makedirsFails = false)
    ∧ (makedirsBlocked envManyFaults.fs0.entries (date_name envManyFaults.yd) = false)
    ∧ (envManyFaults.uf.clientFails = false)
    ∧ ∃ r, main_run envManyFaults = .ok r :=
  ⟨rfl, rfl, rfl, rfl,
   stage_failures_caught_except_entry_points envManyFaults rfl rfl rfl rfl⟩

/-- C9: after the boto3 client is constructed, `upload_to_s3` always
returns normally (nothing is re-raised and nothing can change the process
exit status), distinguishing exactly three error classes — file-not-found,
credentials-missing, and a catch-all — each logged with its own distinct
message; a non-existent local path yields the file-not-found report. -/
theorem upload_error_taxonomy (fp b folder : String) (le : Bool)
    (uf : UploadFaults) (h : uf.clientFails = false) :
    (∃ m, upload_to_s3 fp b folder le uf = .ok m)
    ∧ (le = false → upload_to_s3 fp b folder le uf = .ok "The file was not found")
    ∧ (uf.outcome = .fileNotFound →
        upload_to_s3 fp b folder le uf = .ok "The file was not found")
    ∧ (le = true → uf.outcome = .noCredentials →
        upload_to_s3 fp b folder le uf = .ok "Credentials not available")
    ∧ (le = true → uf.outcome = .otherError →
        upload_to_s3 fp b folder le uf = .ok "Error during S3 upload")
    ∧ ("The file was not found" ≠ "Credentials not available"
        ∧ "The file was not found" ≠ "Error during S3 upload"
        ∧ "Credentials not available" ≠ "Error during S3 upload") := by
  refine ⟨upload_ok fp b folder le uf h, ?_, ?_, ?_, ?_, ?_, ?_, ?_⟩
  · intro hle
    subst hle
    simp [upload_to_s3, h]
  · intro ho
    cases le with
    | false => simp [upload_to_s3, h]
    | true => simp [upload_to_s3, h, ho]
  · intro hle ho
    subst hle
    simp [upload_to_s3, h, ho]
  · intro hle ho
    subst hle
    simp [upload_to_s3, h, ho]
  · decide
  · decide
  · decide

/-- Witness for C9: Scenario D — the local archive does not exist, the
Uploader reports file-not-found and returns normally. -/
theorem upload_error_taxonomy_witness :
    ((UploadFaults.mk false .success).clientFails = false)
    ∧ ((∃ m, upload_to_s3 "D:/CloudBackup/Zip/kyc/2024-05-01.zip" "backupkyc"
          "2024-05-01" false ⟨false, .success⟩ = .ok m)
      ∧ (false = false → upload_to_s3 "D:/CloudBackup/Zip/kyc/2024-05-01.zip"
          "backupkyc" "2024-05-01" false ⟨false, .success⟩
            = .ok "The file was not found")
      ∧ ((UploadFaults.mk false .success).outcome = .fileNotFound →
          upload_to_s3 "D:/CloudBackup/Zip/kyc/2024-05-01.zip" "backupkyc"
            "2024-05-01" false ⟨false, .success⟩ = .ok "The file was not found")
      ∧ (false = true → (UploadFaults.mk false .success).outcome = .noCredentials →
          upload_to_s3 "D:/CloudBackup/Zip/kyc/2024-05-01.zip" "backupkyc"
            "2024-05-01" false ⟨false, .success⟩ = .ok "Credentials not available")
      ∧ (false = true → (UploadFaults.mk false .success).outcome = .otherError →
          upload_to_s3 "D:/CloudBackup/Zip/kyc/2024-05-01.zip" "backupkyc"
            "2024-05-01" false ⟨false, .success⟩ = .ok "Error during S3 upload")
      ∧ ("The file was not found" ≠ "Credentials not available"
          ∧ "The file was not found" ≠ "Error during S3 upload"
          ∧ "Credentials not available" ≠ "Error during S3 upload")) :=
  ⟨rfl, upload_error_taxonomy "D:/CloudBackup/Zip/kyc/2024-05-01.zip" "backupkyc"
    "2024-05-01" false ⟨false, .success⟩ rfl⟩
